import Mathlib

set_option maxRecDepth 8000

/-!
Shallow embedding of the Weego pricing simulator (`src/app.py`).

Numeric values are modelled over `ℚ`: the Python code computes with IEEE
doubles, but every constant in the program and in its documentation is a
short decimal, so exact rational arithmetic is the intended semantics.
Spreadsheet cells are modelled by `Cell` (`na` for a pandas missing value,
`str` for a text cell, `num` for a numeric cell).  Python `dict`s are
modelled as association lists in insertion order, with `dictInsert`
overwriting in place (as `d[k] = v` does) and `setdefault` appending.

One deliberate gap: Python arithmetic on a NaN cell (`na`) does not raise,
it propagates NaN; `ℚ` has no NaN, so `cellToQ` maps `na` to a failure.
Every theorem that depends on pipeline failure is therefore stated and
witnessed on NaN-free data, where the model's failures coincide with the
Python `TypeError`s caught by the `try/except` block.
-/

/-- A spreadsheet/table cell as seen by the pandas layer of `app.py`. -/
inductive Cell : Type
  | na : Cell
  | str : String → Cell
  | num : ℚ → Cell
deriving DecidableEq, Repr

/-- `pd.isna` on a cell. -/
def Cell.isNa : Cell → Bool
  | .na => true
  | _ => false

/-- Using a cell in float arithmetic: a numeric cell is its value, a text
cell raises `TypeError` (caught by the pipeline's `except`).  A `na` cell
would propagate NaN in Python; NaN is unrepresentable here, so it is mapped
to a failure as well, and NaN-bearing inputs are excluded from the theorems
about the pipeline. -/
def cellToQ : Cell → Except Unit ℚ
  | .num q => .ok q
  | _ => .error ()

/-- `0.0`, the value `get_tarif_km` returns for an empty brackets dict. -/
instance : Zero Cell := ⟨.num 0⟩

/-- Lookup in a Python dict modelled as an association list. -/
def dictLookup {α β : Type} [DecidableEq α] (k : α) : List (α × β) → Option β
  | [] => none
  | p :: rest => if p.1 = k then some p.2 else dictLookup k rest

/-- `d[k] = v` on a Python dict: overwrite in place if the key is present,
append (insertion order) otherwise. -/
def dictInsert {α β : Type} [DecidableEq α] (m : List (α × β)) (k : α) (v : β) :
    List (α × β) :=
  if (dictLookup k m).isSome then
    m.map (fun p => if p.1 = k then (k, v) else p)
  else
    m ++ [(k, v)]

/-- `d.get(k, default)`. -/
def dictGet {α β : Type} [DecidableEq α] (m : List (α × β)) (k : α) (d : β) : β :=
  (dictLookup k m).getD d

/-- `d.setdefault(k, v)`: insert `(k, v)` only when `k` is absent. -/
def dictSetdefault {α β : Type} [DecidableEq α] (m : List (α × β)) (k : α) (v : β) :
    List (α × β) :=
  if (dictLookup k m).isSome then m else m ++ [(k, v)]

/-- Descending order on the cutoff component, the sort key used by
`get_tarif_km`. -/
def descKey {α : Type} (a b : ℚ × α) : Prop := b.1 ≤ a.1

instance {α : Type} : DecidableRel (@descKey α) :=
  fun a b => inferInstanceAs (Decidable (b.1 ≤ a.1))

instance {α : Type} : IsTotal (ℚ × α) descKey := ⟨fun a b => le_total b.1 a.1⟩

instance {α : Type} : IsTrans (ℚ × α) descKey := ⟨fun _ _ _ h1 h2 => le_trans h2 h1⟩

/-- `sorted(brackets.items(), key=lambda x: x[0], reverse=True)`:
stable sort of the (cutoff, rate) pairs by descending cutoff. -/
def sortDesc {α : Type} (l : List (ℚ × α)) : List (ℚ × α) :=
  l.insertionSort descKey

/-- `get_tarif_km` (src/app.py lines 138-144): empty dict gives `0.0`;
otherwise scan the cutoffs in descending order and return the rate of the
first cutoff `≤ distance`; if the loop falls through (distance below every
cutoff) return `sorted_brackets[-1][1]`, the rate of the smallest cutoff.
Polymorphic in the rate type because the Python function is untyped: the
rates are numbers in the claims about the rate schedule, and raw `Cell`s
when called from the pipeline on loaded data. -/
def get_tarif_km {α : Type} [Zero α] (distance : ℚ) (brackets : List (ℚ × α)) : α :=
  if brackets.isEmpty then 0
  else
    let sorted_brackets := sortDesc brackets
    match sorted_brackets.find? (fun p => decide (p.1 ≤ distance)) with
    | some p => p.2
    | none => (sorted_brackets.getLastD (0, 0)).2

/-- Recursive form of the lookup loop of `get_tarif_km`, used only in
proofs (`get_tarif_km_eq_pickRate` relates the two). -/
def pickRate {α : Type} [Zero α] (distance : ℚ) : List (ℚ × α) → α
  | [] => 0
  | [p] => p.2
  | p :: q :: rest => if p.1 ≤ distance then p.2 else pickRate distance (q :: rest)

/-- The example schedule used throughout the specification. -/
def exBrackets : List (ℚ × ℚ) := [(10, 6.5), (30, 5.5), (50, 4.5)]

/-- The brackets refuting C6 as stated: the rate grows with the cutoff, so
the per-km rate grows with the distance. -/
def cexBrackets : List (ℚ × ℚ) := [(10, 1), (30, 99)]

/-- A city's entry in `cities_data`: `{"base": ..., "brackets": ...}`
(src/app.py line 91).  The base charge and the bracket rates are raw cells
as loaded from the sheet; the in-code fallback data makes them numeric. -/
structure Schedule where
  base : Cell
  brackets : List (ℚ × Cell)
deriving DecidableEq, Repr

/-- The intermediate values of the pricing pipeline
(src/app.py lines 149-165), under their source names. -/
structure Breakdown where
  base_fixe : ℚ
  tarif_km : ℚ
  mult_total : ℚ
  distance_cost : ℚ
  base_plus_distance : ℚ
  subtotal : ℚ
  benef_supplier : ℚ
  prix_transporteur : ℚ
  benef_weego : ℚ
  prix_weego : ℚ
deriving DecidableEq, Repr

/-- The assignment in the `except` clause (src/app.py line 168): every
pipeline variable is set to `0`. -/
def zeroBreakdown : Breakdown := ⟨0, 0, 0, 0, 0, 0, 0, 0, 0, 0⟩

/-- Multiply the running multiplier by a cell value (`mult_total *= ...`):
raises when the cell is not numeric. -/
def mulCell (m : ℚ) (c : Cell) : Except Unit ℚ := do
  let v ← cellToQ c
  .ok (m * v)

/-- `mult_total` accumulation (src/app.py lines 151-157): start from `1.0`
and multiply in `multipliers.get(key, default)` for each active flag, with
the in-line defaults `0.75`, `0.93`, `1.1`. -/
def computeMult (multipliers : List (Cell × Cell))
    (normal_shift weekend holiday : Bool) : Except Unit ℚ := do
  let mult_total : ℚ := 1.0
  let mult_total ←
    if !normal_shift then
      mulCell mult_total (dictGet multipliers (.str "non_normal") (.num 0.75))
    else pure mult_total
  let mult_total ←
    if weekend then
      mulCell mult_total (dictGet multipliers (.str "weekend") (.num 0.93))
    else pure mult_total
  if holiday then
    mulCell mult_total (dictGet multipliers (.str "holiday") (.num 1.1))
  else pure mult_total

/-- The body of the `try` block (src/app.py lines 149-165).  Failure is any
Python exception in the arithmetic (a text cell used as a number; a NaN
cell, per the model caveat above). -/
def compute_pipeline (city_data : Schedule) (multipliers : List (Cell × Cell))
    (distance coeff_pression : ℚ) (normal_shift weekend holiday : Bool) :
    Except Unit Breakdown := do
  let base ← cellToQ city_data.base
  let base_fixe := base * coeff_pression
  let mult_total ← computeMult multipliers normal_shift weekend holiday
  let tarif_km ← cellToQ (get_tarif_km distance city_data.brackets)
  let distance_cost := distance * tarif_km
  let base_plus_distance := base_fixe + distance_cost
  let subtotal := base_plus_distance * mult_total
  let benef_supplier := subtotal * 0.10
  let prix_transporteur := subtotal + benef_supplier
  let benef_weego := prix_transporteur * 0.20
  let prix_weego := prix_transporteur + benef_weego
  .ok ⟨base_fixe, tarif_km, mult_total, distance_cost, base_plus_distance,
       subtotal, benef_supplier, prix_transporteur, benef_weego, prix_weego⟩

/-- `city_data = cities_data.get(ville, next(iter(cities_data.values())))`
(src/app.py line 146).  Python evaluates the default argument first, so an
empty `cities_data` raises `StopIteration` regardless of `ville`; this line
sits outside the `try/except` of the pipeline. -/
def select_city_data (cities_data : List (Cell × Schedule)) (ville : Cell) :
    Except Unit Schedule :=
  match cities_data with
  | [] => .error ()
  | c :: _ => .ok ((dictLookup ville cities_data).getD c.2)

/-- Result of one interaction: the breakdown that is displayed, plus
whether the `st.error` diagnostic of the `except` clause was emitted. -/
structure PipeResult where
  breakdown : Breakdown
  errored : Bool
deriving DecidableEq, Repr

/-- `try/except` wrapper (src/app.py lines 148-168): a failing pipeline is
replaced by the all-zero breakdown plus the diagnostic message. -/
def wrapPipeline : Except Unit Breakdown → PipeResult
  | .ok b => ⟨b, false⟩
  | .error _ => ⟨zeroBreakdown, true⟩

/-- City selection (line 146) followed by the guarded pipeline
(lines 148-168).  The outer `Except` is an exception that escapes to the
caller: only the `StopIteration` of `select_city_data` can produce it. -/
def run_pricing (cities_data : List (Cell × Schedule))
    (multipliers : List (Cell × Cell)) (ville : Cell)
    (distance coeff_pression : ℚ) (normal_shift weekend holiday : Bool) :
    Except Unit PipeResult := do
  let city_data ← select_city_data cities_data ville
  .ok (wrapPipeline
    (compute_pipeline city_data multipliers distance coeff_pression
      normal_shift weekend holiday))

deriving instance DecidableEq for Except

/-- The brackets of the end-to-end scenario, as loaded cells. -/
def exBracketsC : List (ℚ × Cell) := [(10, .num 6.5), (30, .num 5.5), (50, .num 4.5)]

/-- The fixed multiplier table of the fallback dataset
(src/app.py line 106). -/
def fallbackMult : List (Cell × Cell) :=
  [(.str "non_normal", .num 0.75), (.str "weekend", .num 0.93), (.str "holiday", .num 1.1)]

/-- A schedule without NaN cells: on such data the rational model of the
pipeline agrees exactly with the Python float semantics. -/
def Schedule.naFree (s : Schedule) : Bool :=
  !s.base.isNa && s.brackets.all (fun p => !p.2.isNa)

/-- Every schedule of the mapping is NaN-free. -/
def citiesNaFree (l : List (Cell × Schedule)) : Bool :=
  l.all (fun p => p.2.naFree)

/-- Every multiplier value is NaN-free. -/
def multNaFree (m : List (Cell × Cell)) : Bool :=
  m.all (fun p => !p.2.isNa)

/-- Occurrence of `pat` at some position of `l`. -/
def listContainsSub (pat : List Char) : List Char → Bool
  | [] => pat.isEmpty
  | c :: rest => pat.isPrefixOf (c :: rest) || listContainsSub pat rest

/-- Substring test: Python's `pat in s`. -/
def strContains (s pat : String) : Bool := listContainsSub pat.data s.data

/-- A pandas DataFrame as `app.py` uses one: named columns and rows of
cells (each row listed in column order). -/
structure Table where
  columns : List String
  rows : List (List Cell)
deriving Repr

/-- `row[col]` for a column name drawn from the frame's columns. -/
def Table.cell (t : Table) (row : List Cell) (col : String) : Cell :=
  match t.columns.findIdx? (fun c => c = col) with
  | some i => row.getD i .na
  | none => .na

/-- `df[name]`: the named column, `KeyError` if absent. -/
def Table.getCol (t : Table) (name : String) : Except Unit (List Cell) :=
  if t.columns.any (fun c => c = name) then
    .ok (t.rows.map (fun r => t.cell r name))
  else .error ()

/-- Digits-only string to its numeric value. -/
def digitsToNat (s : String) : Option ℕ :=
  if s.length > 0 ∧ s.data.all Char.isDigit then
    some (s.data.foldl (fun n c => n * 10 + (c.toNat - 48)) 0)
  else none

/-- Modelled subset of Python `float()`: optional sign, decimal digits with
at most one point (`"30"`, `"10.5"`, `"-3"`, `".5"`, `"5."`).  Exponents,
`inf`/`nan` and underscore separators are not modelled; the bracket
headers this is applied to are plain numerals. -/
def parseFloat (s : String) : Option ℚ :=
  let sign : ℚ := if s.startsWith "-" then -1 else 1
  let body := if s.startsWith "-" ∨ s.startsWith "+" then s.drop 1 else s
  match body.splitOn "." with
  | [ip] => (digitsToNat ip).map (fun n => sign * n)
  | [ip, fp] =>
    if ip.isEmpty ∧ fp.isEmpty then none
    else do
      let ipv ← if ip.isEmpty then some 0 else digitsToNat ip
      let fpv ← if fp.isEmpty then some 0 else digitsToNat fp
      some (sign * (ipv + (fpv : ℚ) / 10 ^ fp.length))
  | _ => none

/-- Header to cutoff (src/app.py lines 84-87): drop every `" km"`, strip
whitespace, parse as a float; a failure skips the column. -/
def parseCutoff (header : String) : Option ℚ :=
  parseFloat (header.replace " km" "").trim

/-- Column inference (src/app.py lines 73-74).  `next(gen, default)`
evaluates `default` before iterating, so the positional fallbacks
`columns[0]` / `columns[1]` raise `IndexError` on a short column list even
when a matching header exists. -/
def inferCols (cols : List String) : Except Unit (String × String) := do
  let d0 ← match cols[0]? with | some c => Except.ok c | none => Except.error ()
  let city_col := (cols.find? (fun c => strContains c.toLower "ville")).getD d0
  let d1 ← match cols[1]? with | some c => Except.ok c | none => Except.error ()
  let base_col := (cols.find? (fun c => strContains c.toLower "base")).getD d1
  Except.ok (city_col, base_col)

/-- Bracket-column collection for one city row (src/app.py lines 80-90):
every column other than the city and base columns whose cell is non-NA and
whose header parses as a number contributes a `cutoff → rate-cell` entry;
unparsable headers are skipped silently. -/
def buildBrackets (t : Table) (row : List Cell) (city_col base_col : String) :
    List (ℚ × Cell) :=
  t.columns.foldl
    (fun brackets col =>
      if col ≠ city_col ∧ col ≠ base_col ∧ (t.cell row col).isNa = false then
        match parseCutoff col with
        | some cutoff => dictInsert brackets cutoff (t.cell row col)
        | none => brackets
      else brackets)
    []

/-- `multiplier_map.setdefault(key, 1.0)` for the three required keys
(src/app.py lines 95-96). -/
def fillMultiplierDefaults (m : List (Cell × Cell)) : List (Cell × Cell) :=
  dictSetdefault
    (dictSetdefault (dictSetdefault m (.str "non_normal") (.num 1.0))
      (.str "weekend") (.num 1.0))
    (.str "holiday") (.num 1.0)

/-- Table processing inside the `try` block (src/app.py lines 72-98):
column inference, per-row schedule construction, then the multiplier map
from the (Type, Value) columns.  Any failure is an exception reaching the
`except` clause. -/
def processTables (df_rates df_multipliers : Table) :
    Except Unit (List (Cell × Schedule) × List (Cell × Cell)) := do
  let cols ← inferCols df_rates.columns
  let city_col := cols.1
  let base_col := cols.2
  let cities_data := df_rates.rows.foldl
    (fun acc row =>
      dictInsert acc (df_rates.cell row city_col)
        ⟨df_rates.cell row base_col, buildBrackets df_rates row city_col base_col⟩)
    []
  let typeColumn ← df_multipliers.getCol "Type"
  let valueColumn ← df_multipliers.getCol "Value"
  let multiplier_map := (typeColumn.zip valueColumn).foldl
    (fun acc p => dictInsert acc p.1 p.2) []
  Except.ok (cities_data, fillMultiplierDefaults multiplier_map)

/-- The built-in fallback dataset of the `except` clause
(src/app.py lines 103-106). -/
def fallbackCities : List (Cell × Schedule) :=
  [(.str "Tanger", ⟨.num 1.0, [(10, .num 6.5), (30, .num 5.5), (50, .num 4.5)]⟩),
   (.str "Casablanca", ⟨.num 3.0, [(10, .num 7.5), (30, .num 6.0), (50, .num 5.0)]⟩)]

/-- `load_parameters` (src/app.py lines 50-106).  `gsheets` is `some r`
when both CSV URLs are passed, `r` being the outcome of the two
`pd.read_csv` calls (`.error` if either raises); otherwise `localFile`
describes `pricing_parameters.xlsx`: `none` when the file does not exist
(warning, empty result, line 67), `some (.error _)` when reading it raises,
`some (.ok dfs)` its two sheets.  Any exception inside the `try` block ends
in the fallback dataset of the `except` clause. -/
def load_parameters (gsheets : Option (Except Unit (Table × Table)))
    (localFile : Option (Except Unit (Table × Table))) :
    List (Cell × Schedule) × List (Cell × Cell) :=
  match gsheets with
  | some (.error _) => (fallbackCities, fallbackMult)
  | some (.ok dfs) =>
    (match processTables dfs.1 dfs.2 with
     | .ok res => res
     | .error _ => (fallbackCities, fallbackMult))
  | none =>
    match localFile with
    | none => ([], [])
    | some (.error _) => (fallbackCities, fallbackMult)
    | some (.ok dfs) =>
      (match processTables dfs.1 dfs.2 with
       | .ok res => res
       | .error _ => (fallbackCities, fallbackMult))

/-! ## Lemmas about the tiered-rate lookup -/

theorem sortDesc_perm {α : Type} (l : List (ℚ × α)) : List.Perm (sortDesc l) l :=
  List.perm_insertionSort descKey l

theorem sortDesc_sorted {α : Type} (l : List (ℚ × α)) :
    (sortDesc l).Pairwise descKey :=
  List.sorted_insertionSort descKey l

theorem sortDesc_eq_nil_iff {α : Type} (l : List (ℚ × α)) :
    sortDesc l = [] ↔ l = [] := by
  constructor
  · intro h
    have hl := (sortDesc_perm l).length_eq
    rw [h] at hl
    exact List.length_eq_zero.mp hl.symm
  · intro h
    subst h
    rfl

theorem getLastD_cons_cons {α : Type} (p q : α) (rest : List α) (a : α) :
    (p :: q :: rest).getLastD a = (q :: rest).getLastD a := by
  simp [List.getLastD_cons]

theorem findLoop_eq_pickRate {α : Type} [Zero α] (d : ℚ) :
    ∀ (l : List (ℚ × α)), l ≠ [] →
      (match l.find? (fun p => decide (p.1 ≤ d)) with
        | some p => p.2
        | none => (l.getLastD (0, 0)).2) = pickRate d l
  | [], h => absurd rfl h
  | [p], _ => by
    by_cases hd : p.1 ≤ d <;>
      simp [List.find?_cons_of_pos, List.find?_cons_of_neg, hd, pickRate]
  | p :: q :: rest, _ => by
    by_cases hd : p.1 ≤ d
    · rw [List.find?_cons_of_pos _ (by simpa using hd)]
      simp [pickRate, hd]
    · rw [List.find?_cons_of_neg _ (by simpa using hd)]
      have ih := findLoop_eq_pickRate d (q :: rest) (by simp)
      rw [show pickRate d (p :: q :: rest) = pickRate d (q :: rest) by
        simp [pickRate, hd]]
      rw [← ih]
      cases List.find? (fun r => decide (r.1 ≤ d)) (q :: rest) with
      | some r => rfl
      | none => simp [getLastD_cons_cons]

theorem get_tarif_km_eq_pickRate {α : Type} [Zero α] (d : ℚ)
    (brackets : List (ℚ × α)) :
    get_tarif_km d brackets = pickRate d (sortDesc brackets) := by
  by_cases h : brackets = []
  · subst h
    simp [get_tarif_km, sortDesc, pickRate]
  · have hne : sortDesc brackets ≠ [] :=
      fun hh => h ((sortDesc_eq_nil_iff brackets).mp hh)
    rw [get_tarif_km, if_neg (by simpa using h)]
    exact findLoop_eq_pickRate d (sortDesc brackets) hne

theorem pickRate_mem {α : Type} [Zero α] (d : ℚ) :
    ∀ (l : List (ℚ × α)), l ≠ [] → ∃ r, r ∈ l ∧ pickRate d l = r.2
  | [], h => absurd rfl h
  | [p], _ => ⟨p, by simp, rfl⟩
  | p :: q :: rest, _ => by
    by_cases hd : p.1 ≤ d
    · exact ⟨p, by simp, by simp [pickRate, hd]⟩
    · obtain ⟨r, hr, he⟩ := pickRate_mem d (q :: rest) (by simp)
      exact ⟨r, List.mem_cons_of_mem _ hr, by simp [pickRate, hd, he]⟩

theorem pickRate_max_spec {α : Type} [Zero α] (d : ℚ) :
    ∀ (l : List (ℚ × α)), l.Pairwise descKey → (l.map Prod.fst).Nodup →
      ∀ p : ℚ × α, p ∈ l → p.1 ≤ d → (∀ q ∈ l, q.1 ≤ d → q.1 ≤ p.1) →
      pickRate d l = p.2
  | [], _, _, p, hp, _, _ => absurd hp (List.not_mem_nil p)
  | [a], _, _, p, hp, _, _ => by
    rw [List.mem_singleton] at hp
    subst hp
    rfl
  | a :: b :: rest, hs, hk, p, hp, hpd, hmax => by
    rw [List.map_cons, List.nodup_cons] at hk
    by_cases hd : a.1 ≤ d
    · have hap : a.1 ≤ p.1 := hmax a (by simp) hd
      have hpa : p.1 ≤ a.1 := by
        rcases List.mem_cons.mp hp with h | h
        · rw [h]
        · exact (List.pairwise_cons.mp hs).1 p h
      have hpeq : p = a := by
        rcases List.mem_cons.mp hp with h | h
        · exact h
        · exact absurd (le_antisymm hpa hap ▸ List.mem_map_of_mem Prod.fst h) hk.1
      rw [hpeq]
      simp [pickRate, hd]
    · have hp' : p ∈ b :: rest := by
        rcases List.mem_cons.mp hp with h | h
        · exact absurd (h ▸ hpd) hd
        · exact h
      have ih := pickRate_max_spec d (b :: rest) (List.pairwise_cons.mp hs).2
        hk.2 p hp' hpd (fun q hq hql => hmax q (List.mem_cons_of_mem _ hq) hql)
      simp [pickRate, hd, ih]

theorem pickRate_below_spec {α : Type} [Zero α] (d : ℚ) :
    ∀ (l : List (ℚ × α)), l.Pairwise descKey → (l.map Prod.fst).Nodup →
      ∀ p : ℚ × α, p ∈ l → (∀ q ∈ l, d < q.1) → (∀ q ∈ l, p.1 ≤ q.1) →
      pickRate d l = p.2
  | [], _, _, p, hp, _, _ => absurd hp (List.not_mem_nil p)
  | [a], _, _, p, hp, _, _ => by
    rw [List.mem_singleton] at hp
    subst hp
    rfl
  | a :: b :: rest, hs, hk, p, hp, hbel, hmin => by
    rw [List.map_cons, List.nodup_cons] at hk
    have hd : ¬a.1 ≤ d := not_le.mpr (hbel a (by simp))
    have hp' : p ∈ b :: rest := by
      rcases List.mem_cons.mp hp with h | h
      · exfalso
        subst h
        have h1 : b.1 ≤ p.1 := (List.pairwise_cons.mp hs).1 b (by simp)
        have h2 : p.1 ≤ b.1 := hmin b (by simp)
        exact hk.1 (le_antisymm h2 h1 ▸ List.mem_map_of_mem Prod.fst (by simp))
      · exact h
    have ih := pickRate_below_spec d (b :: rest) (List.pairwise_cons.mp hs).2
      hk.2 p hp' (fun q hq => hbel q (List.mem_cons_of_mem _ hq))
      (fun q hq => hmin q (List.mem_cons_of_mem _ hq))
    simp [pickRate, hd, ih]

theorem pickRate_mono (d1 d2 : ℚ) (h12 : d1 ≤ d2) :
    ∀ (l : List (ℚ × ℚ)), l.Pairwise descKey →
      (∀ p ∈ l, ∀ q ∈ l, p.1 ≤ q.1 → q.2 ≤ p.2) →
      pickRate d2 l ≤ pickRate d1 l
  | [], _, _ => le_refl 0
  | [a], _, _ => le_refl a.2
  | a :: b :: rest, hs, ha => by
    by_cases h1 : a.1 ≤ d1
    · have h2 : a.1 ≤ d2 := le_trans h1 h12
      simp [pickRate, h1, h2]
    · by_cases h2 : a.1 ≤ d2
      · obtain ⟨r, hr, he⟩ := pickRate_mem d1 (b :: rest) (by simp)
        have hra : r.1 ≤ a.1 := (List.pairwise_cons.mp hs).1 r hr
        have har : a.2 ≤ r.2 := ha r (List.mem_cons_of_mem _ hr) a (by simp) hra
        simpa [pickRate, h1, h2, he] using har
      · have ih := pickRate_mono d1 d2 h12 (b :: rest) (List.pairwise_cons.mp hs).2
          (fun p hp q hq => ha p (List.mem_cons_of_mem _ hp) q (List.mem_cons_of_mem _ hq))
        simpa [pickRate, h1, h2] using ih

/-! ## Claim theorems -/

/-- C1: `get_tarif_km` returns 0 on an empty brackets mapping; on a
mapping (cutoffs unique) with some cutoff `≤ d` it returns the rate of the
largest such cutoff (boundary inclusive); when `d` is below every cutoff it
returns the rate of the smallest cutoff; and on the example schedule
`{10:6.5, 30:5.5, 50:4.5}` it yields 6.5, 6.5, 6.5, 5.5, 4.5 at distances
5, 10, 29, 30, 75. -/
theorem C1_get_tarif_km_spec :
    (∀ d : ℚ, get_tarif_km d ([] : List (ℚ × ℚ)) = 0) ∧
    (∀ (d : ℚ) (brackets : List (ℚ × ℚ)) (p : ℚ × ℚ),
      (brackets.map Prod.fst).Nodup → p ∈ brackets → p.1 ≤ d →
      (∀ q ∈ brackets, q.1 ≤ d → q.1 ≤ p.1) →
      get_tarif_km d brackets = p.2) ∧
    (∀ (d : ℚ) (brackets : List (ℚ × ℚ)) (p : ℚ × ℚ),
      (brackets.map Prod.fst).Nodup → p ∈ brackets →
      (∀ q ∈ brackets, d < q.1) → (∀ q ∈ brackets, p.1 ≤ q.1) →
      get_tarif_km d brackets = p.2) ∧
    get_tarif_km 5 exBrackets = 6.5 ∧ get_tarif_km 10 exBrackets = 6.5 ∧
    get_tarif_km 29 exBrackets = 6.5 ∧ get_tarif_km 30 exBrackets = 5.5 ∧
    get_tarif_km 75 exBrackets = 4.5 := by
  refine ⟨fun d => rfl, ?_, ?_, ?_, ?_, ?_, ?_, ?_⟩
  · intro d brackets p hk hp hpd hmax
    rw [get_tarif_km_eq_pickRate]
    exact pickRate_max_spec d (sortDesc brackets) (sortDesc_sorted brackets)
      (((sortDesc_perm brackets).map Prod.fst).nodup_iff.mpr hk)
      p ((sortDesc_perm brackets).mem_iff.mpr hp) hpd
      (fun q hq hql => hmax q ((sortDesc_perm brackets).mem_iff.mp hq) hql)
  · intro d brackets p hk hp hbel hmin
    rw [get_tarif_km_eq_pickRate]
    exact pickRate_below_spec d (sortDesc brackets) (sortDesc_sorted brackets)
      (((sortDesc_perm brackets).map Prod.fst).nodup_iff.mpr hk)
      p ((sortDesc_perm brackets).mem_iff.mpr hp)
      (fun q hq => hbel q ((sortDesc_perm brackets).mem_iff.mp hq))
      (fun q hq => hmin q ((sortDesc_perm brackets).mem_iff.mp hq))
  all_goals with_unfolding_all rfl

/-- Witness for C1: the largest-cutoff conjunct applied to the example
schedule at distance 30 with the tier `(30, 5.5)`. -/
theorem C1_get_tarif_km_spec_witness :
    ((exBrackets.map Prod.fst).Nodup ∧ ((30 : ℚ), (5.5 : ℚ)) ∈ exBrackets ∧
      (30 : ℚ) ≤ 30 ∧ (∀ q ∈ exBrackets, q.1 ≤ 30 → q.1 ≤ 30)) ∧
    get_tarif_km 30 exBrackets = 5.5 :=
  ⟨⟨by with_unfolding_all decide, by with_unfolding_all decide, le_refl 30,
    fun _ _ h => h⟩,
   C1_get_tarif_km_spec.2.1 30 exBrackets (30, 5.5) (by with_unfolding_all decide)
     (by with_unfolding_all decide) (le_refl 30) (fun _ _ h => h)⟩

/-- C6 counterexample: for the non-empty mapping `{10:1, 30:99}` the rate
at distance 5 is 1 while the rate at distance 35 is 99, so
`rateForDistance` is not non-increasing in the distance. -/
theorem C6_counterexample :
    cexBrackets ≠ [] ∧ (5 : ℚ) ≤ 35 ∧
    ¬(get_tarif_km 35 cexBrackets ≤ get_tarif_km 5 cexBrackets) := by
  with_unfolding_all decide

/-- C6 amended: for a brackets mapping whose rates are antitone in the
cutoff (a higher tier never charges more per km), `get_tarif_km` is
non-increasing in the distance. -/
theorem C6_amended_rate_antitone :
    ∀ (brackets : List (ℚ × ℚ)) (d1 d2 : ℚ),
      (∀ p ∈ brackets, ∀ q ∈ brackets, p.1 ≤ q.1 → q.2 ≤ p.2) →
      d1 ≤ d2 → get_tarif_km d2 brackets ≤ get_tarif_km d1 brackets := by
  intro brackets d1 d2 hanti h12
  rw [get_tarif_km_eq_pickRate, get_tarif_km_eq_pickRate]
  exact pickRate_mono d1 d2 h12 (sortDesc brackets) (sortDesc_sorted brackets)
    (fun p hp q hq hpq => hanti p ((sortDesc_perm brackets).mem_iff.mp hp)
      q ((sortDesc_perm brackets).mem_iff.mp hq) hpq)

/-- Witness for the amended C6: the example schedule has antitone rates
and distances 5 ≤ 75 give rates 6.5 ≥ 4.5. -/
theorem C6_amended_rate_antitone_witness :
    ((∀ p ∈ exBrackets, ∀ q ∈ exBrackets, p.1 ≤ q.1 → q.2 ≤ p.2) ∧
      (5 : ℚ) ≤ 75) ∧
    get_tarif_km 75 exBrackets ≤ get_tarif_km 5 exBrackets :=
  ⟨⟨by with_unfolding_all decide, by norm_num⟩,
   C6_amended_rate_antitone exBrackets 5 75 (by with_unfolding_all decide)
     (by norm_num)⟩

/-- C2 counterexample: for base 1.0, brackets `{10:6.5, 30:5.5, 50:4.5}`,
distance 34, urgency 1.0 and all situational flags off, the pipeline does
not produce the values the claim lists (its per-km rate at distance 34 is
5.5, the rate of the 30-cutoff tier, not 4.5). -/
theorem C2_counterexample :
    compute_pipeline ⟨.num 1.0, exBracketsC⟩ fallbackMult 34 1.0 true false false ≠
      .ok ⟨1, 4.5, 1, 153, 154, 154, 15.4, 169.4, 33.88, 203.28⟩ := by
  have h : compute_pipeline ⟨.num 1.0, exBracketsC⟩ fallbackMult 34 1.0 true false false =
      .ok ⟨1, 5.5, 1, 187, 188, 188, 18.8, 206.8, 41.36, 248.16⟩ := by
    with_unfolding_all rfl
  rw [h]
  intro hc
  rw [Except.ok.injEq, Breakdown.mk.injEq] at hc
  have h45 : (5.5 : ℚ) = 4.5 := hc.2.1
  norm_num at h45

/-- C2 amended: on that input the pipeline produces exactly
`perKmRate = 5.5` (the 30-cutoff tier, since 30 ≤ 34 < 50),
`baseFixed = 1.0`, `distanceCost = 187.0`, `preMultiplierSubtotal = 188.0`,
`combinedMultiplier = 1.0`, `postMultiplierSubtotal = 188.0`,
`supplierMargin = 18.8`, `carrierPrice = 206.8`, `platformMargin = 41.36`,
`finalPrice = 248.16`. -/
theorem C2_amended_end_to_end :
    compute_pipeline ⟨.num 1.0, exBracketsC⟩ fallbackMult 34 1.0 true false false =
      .ok ⟨1, 5.5, 1, 187, 188, 188, 18.8, 206.8, 41.36, 248.16⟩ := by
  with_unfolding_all rfl

/-- C7: the combined multiplier is the product of exactly the multipliers
whose flag is active (the off-hours flag being the negation of
`normal_shift`), in either association order; in particular off-hours and
weekend with the documented table compound to 0.6975, and with all three
flags on all three multipliers compound. -/
theorem C7_multiplier_compounding :
    (∀ (m : List (Cell × Cell)) (ns w h : Bool) (a b c : ℚ),
      dictGet m (.str "non_normal") (.num 0.75) = .num a →
      dictGet m (.str "weekend") (.num 0.93) = .num b →
      dictGet m (.str "holiday") (.num 1.1) = .num c →
      computeMult m ns w h =
        .ok ((if ns then 1 else a) * (if w then b else 1) * (if h then c else 1)) ∧
      computeMult m ns w h =
        .ok ((if h then c else 1) * ((if w then b else 1) * (if ns then 1 else a)))) ∧
    computeMult fallbackMult false true false = .ok 0.6975 ∧
    computeMult fallbackMult false true true = .ok (0.75 * (0.93 * 1.1)) := by
  refine ⟨?_, by with_unfolding_all rfl, by with_unfolding_all rfl⟩
  intro m ns w h a b c ha hb hc
  constructor <;>
    cases ns <;> cases w <;> cases h <;>
      simp [computeMult, mulCell, cellToQ, ha, hb, hc, bind, Except.bind, pure,
        Except.pure] <;> norm_num <;> ring_nf

/-- Witness for C7: the product formula applied to the documented table
with off-hours and weekend active. -/
theorem C7_multiplier_compounding_witness :
    (dictGet fallbackMult (Cell.str "non_normal") (Cell.num 0.75) = Cell.num 0.75 ∧
      dictGet fallbackMult (Cell.str "weekend") (Cell.num 0.93) = Cell.num 0.93 ∧
      dictGet fallbackMult (Cell.str "holiday") (Cell.num 1.1) = Cell.num 1.1) ∧
    computeMult fallbackMult false true false =
      .ok ((if false then 1 else (0.75 : ℚ)) * (if true then (0.93 : ℚ) else 1) *
        (if false then (1.1 : ℚ) else 1)) :=
  ⟨⟨rfl, rfl, rfl⟩,
   (C7_multiplier_compounding.1 fallbackMult false true false 0.75 0.93 1.1
     rfl rfl rfl).1⟩

/-- C8: whenever the pipeline succeeds, the carrier price is the
post-multiplier subtotal marked up by 10%, the platform margin is 20% of
the carrier price, and the final price equals
`postMultiplierSubtotal * 1.10 * 1.20` — the margins stack sequentially. -/
theorem C8_margin_stacking :
    ∀ (city_data : Schedule) (multipliers : List (Cell × Cell))
      (distance coeff : ℚ) (ns w h : Bool) (b : Breakdown),
      compute_pipeline city_data multipliers distance coeff ns w h = .ok b →
      b.prix_transporteur = b.subtotal * 1.10 ∧
      b.benef_weego = b.prix_transporteur * 0.20 ∧
      b.prix_weego = b.subtotal * 1.10 * 1.20 := by
  intro cd m dist co ns w h b hb
  rw [compute_pipeline] at hb
  cases h1 : cellToQ cd.base with
  | error e => rw [h1] at hb; simp [bind, Except.bind] at hb
  | ok base =>
    rw [h1] at hb
    cases h2 : computeMult m ns w h with
    | error e => rw [h2] at hb; simp [bind, Except.bind] at hb
    | ok mult =>
      rw [h2] at hb
      cases h3 : cellToQ (get_tarif_km dist cd.brackets) with
      | error e => rw [h3] at hb; simp [bind, Except.bind] at hb
      | ok tarif =>
        rw [h3] at hb
        simp only [bind, Except.bind, Except.ok.injEq] at hb
        subst hb
        refine ⟨by ring, by ring, by ring⟩

/-- Witness for C8: the margin identities at the concrete success at
distance 10 (subtotal 66, carrier price 72.6, final price 87.12). -/
theorem C8_margin_stacking_witness :
    (compute_pipeline ⟨.num 1.0, exBracketsC⟩ fallbackMult 10 1.0 true false false =
      .ok ⟨1, 6.5, 1, 65, 66, 66, 6.6, 72.6, 14.52, 87.12⟩) ∧
    ((72.6 : ℚ) = 66 * 1.10 ∧ (14.52 : ℚ) = 72.6 * 0.20 ∧
      (87.12 : ℚ) = 66 * 1.10 * 1.20) :=
  ⟨by with_unfolding_all rfl,
   C8_margin_stacking ⟨.num 1.0, exBracketsC⟩ fallbackMult 10 1.0 true false false
     ⟨1, 6.5, 1, 65, 66, 66, 6.6, 72.6, 14.52, 87.12⟩ (by with_unfolding_all rfl)⟩

theorem dictLookup_append {α β : Type} [DecidableEq α] (k : α)
    (m m' : List (α × β)) :
    dictLookup k (m ++ m') =
      match dictLookup k m with
      | some v => some v
      | none => dictLookup k m' := by
  induction m with
  | nil => rfl
  | cons p rest ih =>
    by_cases h : p.1 = k <;> simp [dictLookup, h, ih]

theorem dictSetdefault_lookup_self {α β : Type} [DecidableEq α] (k : α)
    (v : β) (m : List (α × β)) (h : dictLookup k m = none) :
    dictLookup k (dictSetdefault m k v) = some v := by
  rw [dictSetdefault, if_neg (by simp [h]), dictLookup_append, h]
  simp [dictLookup]

theorem dictSetdefault_lookup_other {α β : Type} [DecidableEq α]
    (k k' : α) (v : β) (m : List (α × β)) (h : k' ≠ k) :
    dictLookup k (dictSetdefault m k' v) = dictLookup k m := by
  rw [dictSetdefault]
  by_cases hs : (dictLookup k' m).isSome
  · rw [if_pos hs]
  · rw [if_neg hs, dictLookup_append]
    cases hm : dictLookup k m <;> simp [dictLookup, h]

/-- C3 counterexample: on an empty multiplier source, the load-time
`setdefault` fills the missing `non_normal` key with `1.0`, not with the
documented default `0.75`. -/
theorem C3_counterexample :
    dictLookup (Cell.str "non_normal") (fillMultiplierDefaults []) =
      some (Cell.num 1.0) ∧
    Cell.num 1.0 ≠ Cell.num 0.75 := by
  with_unfolding_all decide

/-- C3 amended: before any quote computation, every one of the three
required multiplier keys that is absent from the source table is filled
with the neutral value `1.0` (not with the documented defaults
`0.75`/`0.93`/`1.1`, which only appear as per-query fallbacks inside the
pipeline and in the unusable-source fallback table); keys present in the
source are left untouched. -/
theorem C3_amended_neutral_default :
    (∀ (m : List (Cell × Cell)) (k : Cell),
      (k = .str "non_normal" ∨ k = .str "weekend" ∨ k = .str "holiday") →
      dictLookup k m = none →
      dictLookup k (fillMultiplierDefaults m) = some (.num 1.0)) ∧
    (∀ (m : List (Cell × Cell)) (k : Cell) (v : Cell),
      dictLookup k m = some v →
      dictLookup k (fillMultiplierDefaults m) = some v) := by
  constructor
  · rintro m k (rfl | rfl | rfl) hnone
    · rw [fillMultiplierDefaults,
        dictSetdefault_lookup_other _ _ _ _ (by simp),
        dictSetdefault_lookup_other _ _ _ _ (by simp),
        dictSetdefault_lookup_self _ _ _ hnone]
    · rw [fillMultiplierDefaults,
        dictSetdefault_lookup_other _ _ _ _ (by simp),
        dictSetdefault_lookup_self _ _ _ (by
          rw [dictSetdefault_lookup_other _ _ _ _ (by simp)]
          exact hnone)]
    · rw [fillMultiplierDefaults,
        dictSetdefault_lookup_self _ _ _ (by
          rw [dictSetdefault_lookup_other _ _ _ _ (by simp),
            dictSetdefault_lookup_other _ _ _ _ (by simp)]
          exact hnone)]
  · intro m k v hv
    have hstep : ∀ (k' : Cell) (w : Cell) (m' : List (Cell × Cell)),
        dictLookup k m' = some v →
        dictLookup k (dictSetdefault m' k' w) = some v := by
      intro k' w m' hm'
      by_cases hk : k' = k
      · subst hk
        rw [dictSetdefault, if_pos (by simp [hm'])]
        exact hm'
      · rw [dictSetdefault_lookup_other _ _ _ _ hk]
        exact hm'
    exact hstep _ _ _ (hstep _ _ _ (hstep _ _ _ hv))

/-- Witness for the amended C3: the `weekend` key, missing from an empty
source, is looked up as `1.0` after the fill; a present `non_normal` key
keeps its source value. -/
theorem C3_amended_neutral_default_witness :
    ((Cell.str "weekend" = Cell.str "non_normal" ∨
        Cell.str "weekend" = Cell.str "weekend" ∨
        Cell.str "weekend" = Cell.str "holiday") ∧
      dictLookup (Cell.str "weekend") ([] : List (Cell × Cell)) = none) ∧
    dictLookup (Cell.str "weekend") (fillMultiplierDefaults []) =
      some (Cell.num 1.0) :=
  ⟨⟨Or.inr (Or.inl rfl), rfl⟩,
   C3_amended_neutral_default.1 [] (Cell.str "weekend") (Or.inr (Or.inl rfl)) rfl⟩

/-- C4 counterexample: when no Google-Sheet source is passed and the local
workbook does not exist, `load_parameters` returns empty mappings (after a
warning), not the two-city fallback dataset. -/
theorem C4_counterexample :
    load_parameters none none = ([], []) ∧
    ([] : List (Cell × Schedule)) ≠ fallbackCities := by
  refine ⟨rfl, ?_⟩
  simp [fallbackCities]

/-- C4 amended: every path on which the `try` block raises — the sheet
fetch raising, the local workbook raising, or table processing failing —
ends in the built-in two-city fallback dataset with the fixed multiplier
table; but the no-sheet-and-missing-file branch returns without raising
and yields empty mappings. -/
theorem C4_amended_fallback :
    (∀ (e : Unit) (lf : Option (Except Unit (Table × Table))),
      load_parameters (some (.error e)) lf = (fallbackCities, fallbackMult)) ∧
    (∀ e : Unit,
      load_parameters none (some (.error e)) = (fallbackCities, fallbackMult)) ∧
    (∀ (dfs : Table × Table) (lf : Option (Except Unit (Table × Table))),
      processTables dfs.1 dfs.2 = .error () →
      load_parameters (some (.ok dfs)) lf = (fallbackCities, fallbackMult)) ∧
    (∀ dfs : Table × Table,
      processTables dfs.1 dfs.2 = .error () →
      load_parameters none (some (.ok dfs)) = (fallbackCities, fallbackMult)) ∧
    load_parameters none none = ([], []) := by
  refine ⟨fun e lf => rfl, fun e => rfl, ?_, ?_, rfl⟩
  · intro dfs lf h
    simp [load_parameters, h]
  · intro dfs h
    simp [load_parameters, h]

/-- Witness for the amended C4: a rates table with no columns makes
processing fail, and the loader then returns the fallback dataset. -/
theorem C4_amended_fallback_witness :
    processTables (Table.mk [] []) (Table.mk [] []) = .error () ∧
    load_parameters (some (.ok (Table.mk [] [], Table.mk [] []))) none =
      (fallbackCities, fallbackMult) :=
  ⟨rfl, C4_amended_fallback.2.2.1 (Table.mk [] [], Table.mk [] []) none rfl⟩

/-- C5 counterexample: with an empty loaded city mapping — which the
missing-local-file branch of `load_parameters` can produce — the
`next(iter(cities_data.values()))` default on line 146 raises
`StopIteration` outside the pipeline's `try/except`, so the computation
does raise to the caller. -/
theorem C5_counterexample :
    run_pricing [] [] (.str "Tanger") 34 1.0 true false false = .error () := rfl

/-- C5 amended: provided the loaded city mapping is non-empty (and the
parameter cells are NaN-free, where the rational model is exact), the
pricing computation never raises: it always returns a result, and whenever
the inner pipeline fails the result carries the diagnostic flag and a
breakdown whose every field is 0. -/
theorem C5_amended_no_raise :
    ∀ (cities : List (Cell × Schedule)) (mult : List (Cell × Cell))
      (ville : Cell) (d co : ℚ) (ns w hol : Bool),
      cities ≠ [] → citiesNaFree cities = true → multNaFree mult = true →
      ∃ r : PipeResult,
        run_pricing cities mult ville d co ns w hol = .ok r ∧
        (r.errored = true → r.breakdown = zeroBreakdown) := by
  intro cities mult ville d co ns w hol hne _ _
  match cities with
  | c0 :: rest =>
    refine ⟨wrapPipeline (compute_pipeline ((dictLookup ville (c0 :: rest)).getD c0.2)
      mult d co ns w hol), rfl, ?_⟩
    cases compute_pipeline ((dictLookup ville (c0 :: rest)).getD c0.2)
        mult d co ns w hol with
    | ok b =>
      intro he
      simp [wrapPipeline] at he
    | error e =>
      intro _
      rfl

/-- Witness for the amended C5: a one-city mapping whose base charge is a
text cell; the pipeline fails, no exception escapes, and the displayed
breakdown is all zeros with the diagnostic flag set. -/
theorem C5_amended_no_raise_witness :
    (([(Cell.str "X", (⟨Cell.str "bad", []⟩ : Schedule))] :
        List (Cell × Schedule)) ≠ [] ∧
      citiesNaFree [(Cell.str "X", ⟨Cell.str "bad", []⟩)] = true ∧
      multNaFree [] = true) ∧
    ∃ r : PipeResult,
      run_pricing [(Cell.str "X", ⟨Cell.str "bad", []⟩)] [] (Cell.str "Y")
        34 1.0 true false false = .ok r ∧
      (r.errored = true → r.breakdown = zeroBreakdown) :=
  ⟨⟨by simp, rfl, rfl⟩,
   C5_amended_no_raise [(Cell.str "X", ⟨Cell.str "bad", []⟩)] [] (Cell.str "Y")
     34 1.0 true false false (by simp) rfl rfl⟩

/-- C9: on a rates table with at least two columns, inference never fails;
when no header contains the substring "ville" (case-insensitively) the
first column becomes the city column, and when no header contains "base"
the second column becomes the base-charge column. -/
theorem C9_column_inference :
    ∀ (c0 c1 : String) (rest : List String),
      ((∀ c ∈ c0 :: c1 :: rest, strContains c.toLower "ville" = false) →
        ∃ b, inferCols (c0 :: c1 :: rest) = .ok (c0, b)) ∧
      ((∀ c ∈ c0 :: c1 :: rest, strContains c.toLower "base" = false) →
        ∃ a, inferCols (c0 :: c1 :: rest) = .ok (a, c1)) ∧
      ∃ p, inferCols (c0 :: c1 :: rest) = .ok p := by
  intro c0 c1 rest
  have hin : inferCols (c0 :: c1 :: rest) =
      .ok (((c0 :: c1 :: rest).find? (fun c => strContains c.toLower "ville")).getD c0,
        ((c0 :: c1 :: rest).find? (fun c => strContains c.toLower "base")).getD c1) := by
    simp [inferCols, bind, Except.bind]
  refine ⟨?_, ?_, ⟨_, hin⟩⟩
  · intro hvil
    have hnone : (c0 :: c1 :: rest).find? (fun c => strContains c.toLower "ville") = none :=
      List.find?_eq_none.mpr (fun x hx => by simp [hvil x hx])
    exact ⟨((c0 :: c1 :: rest).find? (fun c => strContains c.toLower "base")).getD c1,
      by rw [hin, hnone]; rfl⟩
  · intro hbas
    have hnone : (c0 :: c1 :: rest).find? (fun c => strContains c.toLower "base") = none :=
      List.find?_eq_none.mpr (fun x hx => by simp [hbas x hx])
    exact ⟨((c0 :: c1 :: rest).find? (fun c => strContains c.toLower "ville")).getD c0,
      by rw [hin, hnone]; rfl⟩

/-- Witness for C9: a two-column table whose headers contain neither
"ville" nor "base"; the city column is inferred as the first column. -/
theorem C9_column_inference_witness :
    (∀ c ∈ ["a", "b"], strContains c.toLower "ville" = false) ∧
    ∃ b, inferCols ["a", "b"] = .ok ("a", b) :=
  ⟨by with_unfolding_all decide,
   (C9_column_inference "a" "b" []).1 (by with_unfolding_all decide)⟩

/-- C10: when the selected city is absent from a non-empty mapping, the
pipeline deterministically runs on the schedule of the first city in
insertion order; when the mapping is empty the fallback itself raises,
outside the pipeline's exception handler. -/
theorem C10_missing_city_first_fallback :
    (∀ (c0 : Cell × Schedule) (rest : List (Cell × Schedule))
       (mult : List (Cell × Cell)) (ville : Cell) (d co : ℚ) (ns w hol : Bool),
      dictLookup ville (c0 :: rest) = none →
      run_pricing (c0 :: rest) mult ville d co ns w hol =
        .ok (wrapPipeline (compute_pipeline c0.2 mult d co ns w hol))) ∧
    (∀ (mult : List (Cell × Cell)) (ville : Cell) (d co : ℚ) (ns w hol : Bool),
      run_pricing [] mult ville d co ns w hol = .error ()) := by
  constructor
  · intro c0 rest mult ville d co ns w hol hl
    show Except.ok (wrapPipeline (compute_pipeline
      ((dictLookup ville (c0 :: rest)).getD c0.2) mult d co ns w hol)) = _
    rw [hl]
    rfl
  · intro mult ville d co ns w hol
    rfl

/-- Witness for C10: the city "X" is absent from a one-city mapping, and
the quote is computed from the first (Tanger) schedule. -/
theorem C10_missing_city_first_fallback_witness :
    dictLookup (Cell.str "X")
      [(Cell.str "Tanger", (⟨Cell.num 1.0, exBracketsC⟩ : Schedule))] = none ∧
    run_pricing [(Cell.str "Tanger", ⟨Cell.num 1.0, exBracketsC⟩)] fallbackMult
        (Cell.str "X") 34 1.0 true false false =
      .ok (wrapPipeline (compute_pipeline (⟨Cell.num 1.0, exBracketsC⟩ : Schedule)
        fallbackMult 34 1.0 true false false)) :=
  ⟨by with_unfolding_all rfl,
   C10_missing_city_first_fallback.1
     (Cell.str "Tanger", ⟨Cell.num 1.0, exBracketsC⟩) [] fallbackMult
     (Cell.str "X") 34 1.0 true false false (by with_unfolding_all rfl)⟩
